import Mathlib

/-!
Shallow embedding of the SHT25 humidity/temperature sensor driver
(`lib_SHT25.h` / `lib_SHT25.cpp`).

The I2C transport is modelled as an oracle (`Bus`); mbed's `I2C::write` and
`I2C::read` return 0 on acknowledgment, so the source's `!_i2c.write(...)`
success test corresponds to `Bus.writeAck ... = true` here.  The `float`
cached samples are modelled as `Option ℚ`, with `none` standing for the
`NAN` sentinel.  Every driver operation additionally returns the list of
bus transactions it performed, in order, so that claims counting bus
traffic can be stated.  The two `Timeout` objects `_t`, `_h` are modelled
by booleans recording whether the one-shot cooldown timer is attached.
-/

namespace SHT25

/-- Header constant `SHT_I2C_ADDR = 0x80`, the sensor I2C address. -/
def SHT_I2C_ADDR : ℕ := 0x80
/-- Header constant `SHT_TRIG_TEMP = 0xF3`, trigger temperature with no hold master. -/
def SHT_TRIG_TEMP : ℕ := 0xF3
/-- Header constant `SHT_TRIG_RH = 0xF5`, trigger humidity with no hold master. -/
def SHT_TRIG_RH : ℕ := 0xF5
/-- Header constant `SHT_WRITE_REG = 0xE6`, write to user register. -/
def SHT_WRITE_REG : ℕ := 0xE6
/-- Header constant `SHT_SOFT_RESET = 0xFE`, soft reset the sensor. -/
def SHT_SOFT_RESET : ℕ := 0xFE
/-- Precision code `SHT_PREC_RH12T14 = 0x00`. -/
def SHT_PREC_RH12T14 : ℕ := 0x00
/-- Precision code `SHT_PREC_RH08T12 = 0x01`. -/
def SHT_PREC_RH08T12 : ℕ := 0x01
/-- Precision code `SHT_PREC_RH10T13 = 0x80`. -/
def SHT_PREC_RH10T13 : ℕ := 0x80
/-- Precision code `SHT_PREC_RH11T11 = 0x81`. -/
def SHT_PREC_RH11T11 : ℕ := 0x81

/-- One I2C transaction on the bus: a write of a byte list to a device
address, or a read of `len` bytes from a device address. -/
inductive BusOp where
  | write (addr : ℕ) (data : List ℕ)
  | read (addr : ℕ) (len : ℕ)
  deriving DecidableEq, Repr

/-- Holds when the transaction is a read. -/
def BusOp.isReadOp : BusOp → Bool
  | .read _ _ => true
  | .write _ _ => false

/-- Holds when the transaction is a write. -/
def BusOp.isWriteOp : BusOp → Bool
  | .read _ _ => false
  | .write _ _ => true

/-- The external transport adapter, as an oracle.  `writeAck a d = true`
models `_i2c.write(a, d, d.length, false) == 0` (acknowledged);
`readAck a n = true` models `_i2c.read(a, rx, n, false) == 0`, in which
case the buffer holds `readBytes a n`. -/
structure Bus where
  writeAck : ℕ → List ℕ → Bool
  readAck : ℕ → ℕ → Bool
  readBytes : ℕ → ℕ → List ℕ

/-- The driver's mutable members: `_temperature`, `_humidity`
(`none` = `NAN`), `_selfHeatTemperature`, `_selfHeatHumidity`, and whether
the `Timeout` objects `_t`, `_h` have been attached. -/
structure State where
  temperature : Option ℚ
  humidity : Option ℚ
  selfHeatTemperature : Bool
  selfHeatHumidity : Bool
  tArmed : Bool
  hArmed : Bool
  deriving DecidableEq, Repr

/-- The temperature conversion inlined in `SHT25::readTemperature`:
`-46.85 + 175.72 * ((((rx[0] << 8) | rx[1]) & 0xFFFC) / 65536.0)`. -/
def decodeTemp (b0 b1 : ℕ) : ℚ :=
  (-46.85 : ℚ) + (175.72 : ℚ) * (((((b0 <<< 8) ||| b1) &&& 0xFFFC : ℕ) : ℚ) / 65536)

/-- The humidity conversion inlined in `SHT25::readHumidity`:
`-6.0 + 125.0 * ((((rx[0] << 8) | rx[1]) & 0xFFFC) / 65536.0)`. -/
def decodeHum (b0 b1 : ℕ) : ℚ :=
  (-6.0 : ℚ) + (125.0 : ℚ) * (((((b0 <<< 8) ||| b1) &&& 0xFFFC : ℕ) : ℚ) / 65536)

/-- Embedding of `SHT25::readTemperature`: write the no-hold trigger command `0xF3`;
on acknowledgment wait `SHT_WAIT_TEMP` ms and read 3 bytes (`rx` is
initialised to `{0xFF, 0xFF, 0xFF}`); on an acknowledged read decode the
two data bytes, otherwise return `NAN`. -/
def readTemperature (bus : Bus) : Option ℚ × List BusOp :=
  if bus.writeAck SHT_I2C_ADDR [SHT_TRIG_TEMP] then
    if bus.readAck SHT_I2C_ADDR 3 then
      let rx := bus.readBytes SHT_I2C_ADDR 3
      (some (decodeTemp (rx.getD 0 0xFF) (rx.getD 1 0xFF)),
       [BusOp.write SHT_I2C_ADDR [SHT_TRIG_TEMP], BusOp.read SHT_I2C_ADDR 3])
    else
      (none, [BusOp.write SHT_I2C_ADDR [SHT_TRIG_TEMP], BusOp.read SHT_I2C_ADDR 3])
  else
    (none, [BusOp.write SHT_I2C_ADDR [SHT_TRIG_TEMP]])

/-- Embedding of `SHT25::readHumidity`: symmetric to `readTemperature` with trigger
command `0xF5` and the humidity conversion. -/
def readHumidity (bus : Bus) : Option ℚ × List BusOp :=
  if bus.writeAck SHT_I2C_ADDR [SHT_TRIG_RH] then
    if bus.readAck SHT_I2C_ADDR 3 then
      let rx := bus.readBytes SHT_I2C_ADDR 3
      (some (decodeHum (rx.getD 0 0xFF) (rx.getD 1 0xFF)),
       [BusOp.write SHT_I2C_ADDR [SHT_TRIG_RH], BusOp.read SHT_I2C_ADDR 3])
    else
      (none, [BusOp.write SHT_I2C_ADDR [SHT_TRIG_RH], BusOp.read SHT_I2C_ADDR 3])
  else
    (none, [BusOp.write SHT_I2C_ADDR [SHT_TRIG_RH]])

/-- Embedding of `SHT25::getTemperature`: when `_selfHeatTemperature` is set, clear it,
attach the `_t` one-shot cooldown timer, and return
`_temperature = readTemperature()`; otherwise return the cached
`_temperature` with no bus traffic. -/
def getTemperature (bus : Bus) (s : State) : Option ℚ × State × List BusOp :=
  if s.selfHeatTemperature then
    let r := readTemperature bus
    (r.1, { s with temperature := r.1, selfHeatTemperature := false, tArmed := true }, r.2)
  else
    (s.temperature, s, [])

/-- Embedding of `SHT25::getHumidity`: symmetric to `getTemperature`. -/
def getHumidity (bus : Bus) (s : State) : Option ℚ × State × List BusOp :=
  if s.selfHeatHumidity then
    let r := readHumidity bus
    (r.1, { s with humidity := r.1, selfHeatHumidity := false, hArmed := true }, r.2)
  else
    (s.humidity, s, [])

/-- Embedding of `SHT25::readData`: first `*tempC = _temperature = readTemperature();`
then `*relHumidity = _humidity = readHumidity();`. -/
def readData (bus : Bus) (s : State) : (Option ℚ × Option ℚ) × State × List BusOp :=
  let t := readTemperature bus
  let h := readHumidity bus
  ((t.1, h.1), { s with temperature := t.1, humidity := h.1 }, t.2 ++ h.2)

/-- Embedding of `SHT25::getData`: when both self-heat flags are set, clear both,
attach both cooldown timers and call `readData`; otherwise hand back the
cached pair with no bus traffic. -/
def getData (bus : Bus) (s : State) : (Option ℚ × Option ℚ) × State × List BusOp :=
  if s.selfHeatTemperature && s.selfHeatHumidity then
    readData bus
      { s with selfHeatTemperature := false, selfHeatHumidity := false,
               tArmed := true, hArmed := true }
  else
    ((s.temperature, s.humidity), s, [])

/-- Embedding of `SHT25::setPrecision`: write the byte pair `SHT_WRITE_REG` then `precision` to the
device; return `true` exactly on bus acknowledgment.  The definition in
`lib_SHT25.cpp` takes a plain `char` and performs no check of its own. -/
def setPrecision (bus : Bus) (precision : ℕ) : Bool × List BusOp :=
  let command := [SHT_WRITE_REG, precision]
  (bus.writeAck SHT_I2C_ADDR command, [BusOp.write SHT_I2C_ADDR command])

/-- Embedding of `SHT25::softReset`: write the soft-reset command; return `true`
exactly on bus acknowledgment. -/
def softReset (bus : Bus) : Bool × List BusOp :=
  (bus.writeAck SHT_I2C_ADDR [SHT_SOFT_RESET], [BusOp.write SHT_I2C_ADDR [SHT_SOFT_RESET]])

/-- The constructor `SHT25::SHT25`: soft reset, program the default
precision, then initialise `_temperature = _humidity = NAN` and
`_selfHeatTemperature = _selfHeatHumidity = true`. -/
def construct (bus : Bus) : State × List BusOp :=
  ({ temperature := none, humidity := none,
     selfHeatTemperature := true, selfHeatHumidity := true,
     tArmed := false, hArmed := false },
   (softReset bus).2 ++ (setPrecision bus SHT_PREC_RH12T14).2)

/-- The `_t` timer callback `SHT25::keepSafeTemperature`. -/
def keepSafeTemperature (s : State) : State :=
  { s with selfHeatTemperature := true }

/-- The `_h` timer callback `SHT25::keepSafeHumidity`. -/
def keepSafeHumidity (s : State) : State :=
  { s with selfHeatHumidity := true }

/-- Modelled from the spec (§4.1 Codec), for the refinement claim about
the decoder: combine the two data bytes big-endian into a 16-bit word,
mask out the low 2 bits, divide by 65536, apply the temperature affine
transform. -/
def specDecodeTemp (b0 b1 : ℕ) : ℚ :=
  let word := b0 * 256 + b1
  let masked := word - word % 4
  (-46.85 : ℚ) + (175.72 : ℚ) * ((masked : ℚ) / 65536)

/-- Modelled from the spec (§4.1 Codec): the humidity counterpart of
`specDecodeTemp`. -/
def specDecodeHum (b0 b1 : ℕ) : ℚ :=
  let word := b0 * 256 + b1
  let masked := word - word % 4
  (-6.0 : ℚ) + (125.0 : ℚ) * ((masked : ℚ) / 65536)

/-- A bus on which every transaction is acknowledged and reads return the
sample bytes `0x63 0x44` plus a checksum byte. -/
def okBus : Bus where
  writeAck := fun _ _ => true
  readAck := fun _ _ => true
  readBytes := fun _ _ => [0x63, 0x44, 0x2A]

/-- A bus on which nothing is acknowledged. -/
def failBus : Bus where
  writeAck := fun _ _ => false
  readAck := fun _ _ => false
  readBytes := fun _ _ => [0xFF, 0xFF, 0xFF]

/-- A bus that acknowledges writes but never acknowledges a read. -/
def nackReadBus : Bus where
  writeAck := fun _ _ => true
  readAck := fun _ _ => false
  readBytes := fun _ _ => [0xFF, 0xFF, 0xFF]

/-- A driver state holding previously measured values, with both
cooldowns elapsed (both self-heat flags set). -/
def lastGood : State :=
  { temperature := some 20, humidity := some 50,
    selfHeatTemperature := true, selfHeatHumidity := true,
    tArmed := false, hArmed := false }

/-- A driver state holding previously measured values, in the middle of
both cooldown windows (both self-heat flags clear). -/
def midCooldown : State :=
  { temperature := some 20, humidity := some 50,
    selfHeatTemperature := false, selfHeatHumidity := false,
    tArmed := true, hArmed := true }

/-! Helper lemmas shared by the claim theorems. -/

theorem lor_eq_add (b0 b1 : ℕ) (h1 : b1 < 256) : (b0 <<< 8) ||| b1 = b0 * 256 + b1 := by
  rw [Nat.shiftLeft_eq]
  calc b0 * 2 ^ 8 ||| b1 = 2 ^ 8 * b0 ||| b1 := by rw [Nat.mul_comm]
    _ = 2 ^ 8 * b0 + b1 := (Nat.mul_add_lt_is_or (by simpa using h1) b0).symm
    _ = b0 * 256 + b1 := by ring

theorem masked_eq_sub_mod (w : ℕ) (hw : w < 65536) :
    w &&& 0xFFFC = w - w % 4 := by
  have h4 : w - w % 4 = (w >>> 2) <<< 2 := by
    rw [Nat.shiftRight_eq_div_pow, Nat.shiftLeft_eq]
    have := Nat.div_add_mod w 4
    have h2 : (2 : ℕ) ^ 2 = 4 := by norm_num
    rw [h2]
    omega
  rw [h4]
  apply Nat.eq_of_testBit_eq
  intro i
  rw [Nat.testBit_land, Nat.testBit_shiftLeft, Nat.testBit_shiftRight]
  have hm : (0xFFFC : ℕ) = (2 ^ 14 - 1) <<< 2 := by decide
  rw [hm, Nat.testBit_shiftLeft, Nat.testBit_two_pow_sub_one]
  by_cases hi2 : 2 ≤ i
  · by_cases hi16 : i < 16
    · have he : 2 + (i - 2) = i := by omega
      simp [he, show i ≥ 2 by omega, show i - 2 < 14 by omega]
    · have he : 2 + (i - 2) = i := by omega
      have hfalse : w.testBit i = false := by
        apply Nat.testBit_eq_false_of_lt
        calc w < 65536 := hw
          _ = 2 ^ 16 := by norm_num
          _ ≤ 2 ^ i := Nat.pow_le_pow_right (by norm_num) (by omega)
      simp [he, hfalse, show ¬(i - 2 < 14) by omega]
  · simp [show ¬(i ≥ 2) by omega]

theorem masked_eq (b0 b1 : ℕ) (h0 : b0 < 256) (h1 : b1 < 256) :
    ((b0 <<< 8) ||| b1) &&& 0xFFFC = (b0 * 256 + b1) - (b0 * 256 + b1) % 4 := by
  rw [lor_eq_add b0 b1 h1]
  exact masked_eq_sub_mod _ (by omega)

theorem readTemperature_write_count (bus : Bus) :
    ((readTemperature bus).2).countP (fun op => op.isWriteOp) = 1 := by
  unfold readTemperature
  split
  · split
    · rfl
    · rfl
  · rfl

theorem readHumidity_write_count (bus : Bus) :
    ((readHumidity bus).2).countP (fun op => op.isWriteOp) = 1 := by
  unfold readHumidity
  split
  · split
    · rfl
    · rfl
  · rfl

theorem readTemperature_trace_ne_nil (bus : Bus) : (readTemperature bus).2 ≠ [] := by
  unfold readTemperature
  split
  · split
    · simp
    · simp
  · simp

theorem readHumidity_trace_ne_nil (bus : Bus) : (readHumidity bus).2 ≠ [] := by
  unfold readHumidity
  split
  · split
    · simp
    · simp
  · simp

/-- Claim C2: for every pair of response data bytes, the driver's decoders
combine the two bytes big-endian into a 16-bit word, mask off the low 2
bits, divide by 65536, and apply the affine transforms
`-46.85 + 175.72 * (masked/65536)` (temperature) and
`-6.0 + 125.0 * (masked/65536)` (humidity): the code's bitwise decoders
agree with the spec-worded arithmetic decoders on all byte pairs. -/
theorem decode_refines_spec (b0 b1 : ℕ) (h0 : b0 < 256) (h1 : b1 < 256) :
    decodeTemp b0 b1 = specDecodeTemp b0 b1 ∧
    decodeHum b0 b1 = specDecodeHum b0 b1 := by
  unfold decodeTemp decodeHum specDecodeTemp specDecodeHum
  rw [masked_eq b0 b1 h0 h1]
  exact ⟨rfl, rfl⟩

/-- Witness for C2 at the concrete byte pair `0x63 0x44`. -/
theorem decode_refines_spec_witness :
    (0x63 : ℕ) < 256 ∧ (0x44 : ℕ) < 256 ∧
    (decodeTemp 0x63 0x44 = specDecodeTemp 0x63 0x44 ∧
     decodeHum 0x63 0x44 = specDecodeHum 0x63 0x44) :=
  ⟨by norm_num, by norm_num, decode_refines_spec 0x63 0x44 (by norm_num) (by norm_num)⟩

/-- Claim C8, counterexample: raw bytes `0x00 0x00` decode to
-46.85 °C and -6 %RH, outside the documented physical ranges
[-40, 125] °C and [0, 100] %RH, so the decoded value is not within the
physical range for every raw input. -/
theorem decode_out_of_range_cex :
    decodeTemp 0 0 < -40 ∧ decodeHum 0 0 < 0 := by
  have h : (((0 <<< 8) ||| 0) &&& 0xFFFC : ℕ) = 0 := by decide
  unfold decodeTemp decodeHum
  rw [h]
  norm_num

/-- Claim C8 (amended): for every raw input the decoded temperature lies
in [-46.85, 128.86] and the decoded humidity in [-6, 119]; these are the
codec's actual output bounds and they exceed the sensor's documented
physical ranges, which the codec does not enforce. -/
theorem decode_range_bounds (b0 b1 : ℕ) :
    (-46.85 : ℚ) ≤ decodeTemp b0 b1 ∧ decodeTemp b0 b1 ≤ 128.86 ∧
    (-6 : ℚ) ≤ decodeHum b0 b1 ∧ decodeHum b0 b1 ≤ 119 := by
  have hle : (((b0 <<< 8) ||| b1) &&& 0xFFFC) ≤ 65532 := Nat.and_le_right
  have hq : ((((b0 <<< 8) ||| b1) &&& 0xFFFC : ℕ) : ℚ) ≤ 65532 := by exact_mod_cast hle
  have hq0 : (0 : ℚ) ≤ ((((b0 <<< 8) ||| b1) &&& 0xFFFC : ℕ) : ℚ) := Nat.cast_nonneg _
  unfold decodeTemp decodeHum
  refine ⟨by linarith, by linarith, by linarith, by linarith⟩

/-- Claim C9, counterexample: a raw pre-mask value of `0xFFFF` decodes to
about 128.86 °C, more than 40 °C away from the claimed ≈173.72 °C. -/
theorem decode_ffff_not_approx_cex :
    (173.72 : ℚ) - decodeTemp 0xFF 0xFF > 40 := by
  have h : (((0xFF <<< 8) ||| 0xFF) &&& 0xFFFC : ℕ) = 65532 := by decide
  unfold decodeTemp
  rw [h]
  norm_num

/-- Claim C9 (amended): a raw pre-mask value of `0xFFFF` decodes to
≈128.86 °C (between 128.85 and 128.86) and ≈118.99 %RH (between 118.99
and 119); both exceed the physical ranges, confirming the codec performs
no clamping. -/
theorem decode_ffff_values :
    ((128.85 : ℚ) < decodeTemp 0xFF 0xFF ∧ decodeTemp 0xFF 0xFF < 128.86) ∧
    ((118.99 : ℚ) < decodeHum 0xFF 0xFF ∧ decodeHum 0xFF 0xFF < 119) ∧
    (125 : ℚ) < decodeTemp 0xFF 0xFF ∧ (100 : ℚ) < decodeHum 0xFF 0xFF := by
  have h : (((0xFF <<< 8) ||| 0xFF) &&& 0xFFFC : ℕ) = 65532 := by decide
  unfold decodeTemp decodeHum
  rw [h]
  norm_num

/-- Helper: a no-hold temperature measurement yields the NaN sentinel as
soon as either the trigger write or the data read is not acknowledged. -/
theorem readTemperature_fails (bus : Bus)
    (h : bus.writeAck SHT_I2C_ADDR [SHT_TRIG_TEMP] = false ∨
         bus.readAck SHT_I2C_ADDR 3 = false) :
    (readTemperature bus).1 = none := by
  unfold readTemperature
  rcases h with h | h
  · simp [h]
  · split
    · simp [h]
    · rfl

/-- Helper: the humidity counterpart of `readTemperature_fails`. -/
theorem readHumidity_fails (bus : Bus)
    (h : bus.writeAck SHT_I2C_ADDR [SHT_TRIG_RH] = false ∨
         bus.readAck SHT_I2C_ADDR 3 = false) :
    (readHumidity bus).1 = none := by
  unfold readHumidity
  rcases h with h | h
  · simp [h]
  · split
    · simp [h]
    · rfl

/-- Claim C1, counterexample: with both cooldowns elapsed and a cached
temperature of 20 °C, a failed measurement attempt — whether the bus
acknowledges nothing (`failBus`, trigger write nack) or acknowledges the
trigger write but not the data read (`nackReadBus`) — overwrites the
cached temperature with the NaN sentinel, clears the self-heat flag and
attaches the cooldown timer: the failed measurement does not leave the
cache untouched, and it re-arms the cooldown. -/
theorem failedMeasure_mutates_cex :
    lastGood.temperature = some 20 ∧
    (getTemperature failBus lastGood).2.1.temperature = none ∧
    (getTemperature failBus lastGood).2.1.selfHeatTemperature = false ∧
    (getTemperature failBus lastGood).2.1.tArmed = true ∧
    (getTemperature nackReadBus lastGood).2.1.temperature = none ∧
    (getTemperature nackReadBus lastGood).2.1.selfHeatTemperature = false ∧
    (getTemperature nackReadBus lastGood).2.1.tArmed = true :=
  ⟨rfl, rfl, rfl, rfl, rfl, rfl, rfl⟩

/-- Claim C1 (amended): when a measurement's trigger write or its data
read is not acknowledged, the measurement attempt through
`getTemperature`, `getHumidity` or `getData` overwrites the
corresponding cached value(s) with the NaN sentinel and re-arms the
corresponding cooldown (the self-heat flag is cleared and the one-shot
timer attached), so the next call within the window returns the NaN
sentinel without touching the bus instead of retrying. -/
theorem failedMeasure_overwrites_and_rearms (bus : Bus) (s : State)
    (ht : s.selfHeatTemperature = true) (hh : s.selfHeatHumidity = true)
    (hfT : bus.writeAck SHT_I2C_ADDR [SHT_TRIG_TEMP] = false ∨
           bus.readAck SHT_I2C_ADDR 3 = false)
    (hfH : bus.writeAck SHT_I2C_ADDR [SHT_TRIG_RH] = false ∨
           bus.readAck SHT_I2C_ADDR 3 = false) :
    (getTemperature bus s).1 = none ∧
    (getTemperature bus s).2.1.temperature = none ∧
    (getTemperature bus s).2.1.selfHeatTemperature = false ∧
    (getTemperature bus s).2.1.tArmed = true ∧
    (getTemperature bus ((getTemperature bus s).2.1)).1 = none ∧
    (getTemperature bus ((getTemperature bus s).2.1)).2.2 = [] ∧
    (getHumidity bus s).1 = none ∧
    (getHumidity bus s).2.1.humidity = none ∧
    (getHumidity bus s).2.1.selfHeatHumidity = false ∧
    (getHumidity bus s).2.1.hArmed = true ∧
    (getData bus s).1 = (none, none) ∧
    (getData bus s).2.1.temperature = none ∧
    (getData bus s).2.1.humidity = none ∧
    (getData bus s).2.1.selfHeatTemperature = false ∧
    (getData bus s).2.1.selfHeatHumidity = false := by
  have hT : (readTemperature bus).1 = none := readTemperature_fails bus hfT
  have hH : (readHumidity bus).1 = none := readHumidity_fails bus hfH
  simp [getTemperature, getHumidity, getData, readData, ht, hh, hT, hH]

/-- Witness for C1 (amended) in the acknowledged-write/non-acknowledged-
read failure mode: on the bus that acknowledges every write but no read,
from the state with both cooldowns elapsed and cached values
20 °C / 50 %RH. -/
theorem failedMeasure_overwrites_and_rearms_witness :
    lastGood.selfHeatTemperature = true ∧ lastGood.selfHeatHumidity = true ∧
    nackReadBus.writeAck SHT_I2C_ADDR [SHT_TRIG_TEMP] = true ∧
    nackReadBus.writeAck SHT_I2C_ADDR [SHT_TRIG_RH] = true ∧
    nackReadBus.readAck SHT_I2C_ADDR 3 = false ∧
    ((getTemperature nackReadBus lastGood).1 = none ∧
     (getTemperature nackReadBus lastGood).2.1.temperature = none ∧
     (getTemperature nackReadBus lastGood).2.1.selfHeatTemperature = false ∧
     (getTemperature nackReadBus lastGood).2.1.tArmed = true ∧
     (getTemperature nackReadBus ((getTemperature nackReadBus lastGood).2.1)).1 = none ∧
     (getTemperature nackReadBus ((getTemperature nackReadBus lastGood).2.1)).2.2 = [] ∧
     (getHumidity nackReadBus lastGood).1 = none ∧
     (getHumidity nackReadBus lastGood).2.1.humidity = none ∧
     (getHumidity nackReadBus lastGood).2.1.selfHeatHumidity = false ∧
     (getHumidity nackReadBus lastGood).2.1.hArmed = true ∧
     (getData nackReadBus lastGood).1 = (none, none) ∧
     (getData nackReadBus lastGood).2.1.temperature = none ∧
     (getData nackReadBus lastGood).2.1.humidity = none ∧
     (getData nackReadBus lastGood).2.1.selfHeatTemperature = false ∧
     (getData nackReadBus lastGood).2.1.selfHeatHumidity = false) :=
  ⟨rfl, rfl, rfl, rfl, rfl,
   failedMeasure_overwrites_and_rearms nackReadBus lastGood rfl rfl
     (Or.inr rfl) (Or.inr rfl)⟩

/-- Claim C3: when either self-heat flag is clear (that quantity's
cooldown has not elapsed), `getData` performs zero bus transactions and
hands back the cached pair with the state unchanged; when both flags are
set, its bus trace is exactly one temperature measurement followed by one
humidity measurement, and it hands back the freshly measured pair. -/
theorem getData_all_or_nothing (bus : Bus) (s : State) :
    (s.selfHeatTemperature = false ∨ s.selfHeatHumidity = false →
      getData bus s = ((s.temperature, s.humidity), s, [])) ∧
    (s.selfHeatTemperature = true → s.selfHeatHumidity = true →
      (getData bus s).2.2 = (readTemperature bus).2 ++ (readHumidity bus).2 ∧
      (getData bus s).1 = ((readTemperature bus).1, (readHumidity bus).1)) := by
  constructor
  · intro h
    rcases h with h | h <;> simp [getData, h]
  · intro ht hh
    simp [getData, readData, ht, hh]

/-- Witness for C3: both directions at concrete states on the
all-acknowledging bus. -/
theorem getData_all_or_nothing_witness :
    (midCooldown.selfHeatTemperature = false ∨ midCooldown.selfHeatHumidity = false) ∧
    getData okBus midCooldown = ((midCooldown.temperature, midCooldown.humidity), midCooldown, []) ∧
    lastGood.selfHeatTemperature = true ∧ lastGood.selfHeatHumidity = true ∧
    ((getData okBus lastGood).2.2 = (readTemperature okBus).2 ++ (readHumidity okBus).2 ∧
     (getData okBus lastGood).1 = ((readTemperature okBus).1, (readHumidity okBus).1)) :=
  ⟨Or.inl rfl,
   (getData_all_or_nothing okBus midCooldown).1 (Or.inl rfl),
   rfl, rfl,
   (getData_all_or_nothing okBus lastGood).2 rfl rfl⟩

/-- Claim C4: starting from a state whose temperature cooldown is safe,
two consecutive `getTemperature` calls (the second falling inside the
cooldown window armed by the first) perform exactly the bus traffic of a
single measurement — one trigger write — and the second call performs no
bus transaction at all, returning the identical value the first call
cached and leaving the state unchanged. -/
theorem getTemperature_twice_single_measurement (bus : Bus) (s : State)
    (h : s.selfHeatTemperature = true) :
    (getTemperature bus s).2.2 = (readTemperature bus).2 ∧
    ((getTemperature bus s).2.2).countP (fun op => op.isWriteOp) = 1 ∧
    (getTemperature bus ((getTemperature bus s).2.1)).2.2 = [] ∧
    (getTemperature bus ((getTemperature bus s).2.1)).1 = (getTemperature bus s).1 ∧
    (getTemperature bus ((getTemperature bus s).2.1)).2.1 = (getTemperature bus s).2.1 := by
  refine ⟨by simp [getTemperature, h], ?_, ?_, ?_, ?_⟩ <;>
    simp [getTemperature, h, readTemperature_write_count]

/-- Witness for C4 at the all-acknowledging bus from the state with both
cooldowns elapsed. -/
theorem getTemperature_twice_single_measurement_witness :
    lastGood.selfHeatTemperature = true ∧
    ((getTemperature okBus lastGood).2.2 = (readTemperature okBus).2 ∧
     ((getTemperature okBus lastGood).2.2).countP (fun op => op.isWriteOp) = 1 ∧
     (getTemperature okBus ((getTemperature okBus lastGood).2.1)).2.2 = [] ∧
     (getTemperature okBus ((getTemperature okBus lastGood).2.1)).1 =
       (getTemperature okBus lastGood).1 ∧
     (getTemperature okBus ((getTemperature okBus lastGood).2.1)).2.1 =
       (getTemperature okBus lastGood).2.1) :=
  ⟨rfl, getTemperature_twice_single_measurement okBus lastGood rfl⟩

/-- Claim C5: immediately after construction both self-heat flags are set
(the cooldown state is safe) and both caches hold the NaN sentinel, so
the first `getTemperature` call performs exactly one real measurement's
bus traffic (a non-empty trace) and returns the fresh measurement result
rather than the sentinel cache, and the first `getHumidity` call after it
does likewise. -/
theorem construct_first_calls_measure (bus : Bus) :
    (construct bus).1.selfHeatTemperature = true ∧
    (construct bus).1.selfHeatHumidity = true ∧
    (construct bus).1.temperature = none ∧
    (construct bus).1.humidity = none ∧
    (getTemperature bus (construct bus).1).2.2 = (readTemperature bus).2 ∧
    (getTemperature bus (construct bus).1).2.2 ≠ [] ∧
    (getTemperature bus (construct bus).1).1 = (readTemperature bus).1 ∧
    (getHumidity bus (getTemperature bus (construct bus).1).2.1).2.2 = (readHumidity bus).2 ∧
    (getHumidity bus (getTemperature bus (construct bus).1).2.1).2.2 ≠ [] ∧
    (getHumidity bus (getTemperature bus (construct bus).1).2.1).1 = (readHumidity bus).1 := by
  refine ⟨rfl, rfl, rfl, rfl, ?_, ?_, ?_, ?_, ?_, ?_⟩ <;>
    simp [construct, getTemperature, getHumidity,
          readTemperature_trace_ne_nil, readHumidity_trace_ne_nil]

/-- Claim C6, counterexample: `setPrecision` called with `0x42`, which is
none of the four defined precision codes, still sends the byte pair
`{0xE6, 0x42}` to the device and reports success — no value is rejected
before being sent. -/
theorem setPrecision_unvalidated_cex :
    (setPrecision okBus 0x42).2 = [BusOp.write SHT_I2C_ADDR [SHT_WRITE_REG, 0x42]] ∧
    (setPrecision okBus 0x42).1 = true ∧
    (0x42 : ℕ) ≠ SHT_PREC_RH12T14 ∧ (0x42 : ℕ) ≠ SHT_PREC_RH08T12 ∧
    (0x42 : ℕ) ≠ SHT_PREC_RH10T13 ∧ (0x42 : ℕ) ≠ SHT_PREC_RH11T11 :=
  ⟨rfl, rfl, by decide, by decide, by decide, by decide⟩

/-- Claim C6 (amended): `setPrecision` performs no runtime validation of
its argument: for every byte value it writes `{0xE6, value}` to the
device and returns the bus acknowledgment; the only restriction to the
four defined codes is the enum parameter type declared in the header. -/
theorem setPrecision_writes_any_byte (bus : Bus) (p : ℕ) :
    (setPrecision bus p).2 = [BusOp.write SHT_I2C_ADDR [SHT_WRITE_REG, p]] ∧
    (setPrecision bus p).1 = bus.writeAck SHT_I2C_ADDR [SHT_WRITE_REG, p] :=
  ⟨rfl, rfl⟩

/-- Claim C7, counterexample: on a bus that acknowledges the trigger
write but not the data read, a no-hold measurement makes exactly one read
attempt and immediately yields the NaN sentinel — a non-acknowledged read
is not retried and produces no distinguished Timeout result. -/
theorem nack_read_single_attempt_cex :
    (readTemperature nackReadBus).1 = none ∧
    ((readTemperature nackReadBus).2).countP (fun op => op.isReadOp) = 1 ∧
    (readHumidity nackReadBus).1 = none ∧
    ((readHumidity nackReadBus).2).countP (fun op => op.isReadOp) = 1 :=
  ⟨rfl, rfl, rfl, rfl⟩

/-- Claim C7 (amended): in no-hold acquisition the driver performs a
fixed delay and at most one read transaction per measurement; when the
trigger write is acknowledged but the read is not, the measurement
returns the NaN sentinel after exactly one read attempt, with no retry
loop and no Timeout result distinct from the read-failure sentinel. -/
theorem read_single_attempt_no_retry (bus : Bus) :
    ((readTemperature bus).2).countP (fun op => op.isReadOp) ≤ 1 ∧
    ((readHumidity bus).2).countP (fun op => op.isReadOp) ≤ 1 ∧
    (bus.writeAck SHT_I2C_ADDR [SHT_TRIG_TEMP] = true →
      bus.readAck SHT_I2C_ADDR 3 = false →
      (readTemperature bus).1 = none ∧
      ((readTemperature bus).2).countP (fun op => op.isReadOp) = 1) ∧
    (bus.writeAck SHT_I2C_ADDR [SHT_TRIG_RH] = true →
      bus.readAck SHT_I2C_ADDR 3 = false →
      (readHumidity bus).1 = none ∧
      ((readHumidity bus).2).countP (fun op => op.isReadOp) = 1) := by
  refine ⟨?_, ?_, ?_, ?_⟩
  · unfold readTemperature
    split
    · split
      · simp [BusOp.isReadOp, BusOp.isWriteOp]
      · simp [BusOp.isReadOp, BusOp.isWriteOp]
    · simp [BusOp.isReadOp, BusOp.isWriteOp]
  · unfold readHumidity
    split
    · split
      · simp [BusOp.isReadOp, BusOp.isWriteOp]
      · simp [BusOp.isReadOp, BusOp.isWriteOp]
    · simp [BusOp.isReadOp, BusOp.isWriteOp]
  · intro hw hr
    simp [readTemperature, hw, hr, BusOp.isReadOp, BusOp.isWriteOp]
  · intro hw hr
    simp [readHumidity, hw, hr, BusOp.isReadOp, BusOp.isWriteOp]

/-- Witness for C7 (amended) on the bus that acknowledges writes but not
reads. -/
theorem read_single_attempt_no_retry_witness :
    ((readTemperature nackReadBus).2).countP (fun op => op.isReadOp) ≤ 1 ∧
    ((readHumidity nackReadBus).2).countP (fun op => op.isReadOp) ≤ 1 ∧
    nackReadBus.writeAck SHT_I2C_ADDR [SHT_TRIG_TEMP] = true ∧
    nackReadBus.readAck SHT_I2C_ADDR 3 = false ∧
    ((readTemperature nackReadBus).1 = none ∧
     ((readTemperature nackReadBus).2).countP (fun op => op.isReadOp) = 1) ∧
    ((readHumidity nackReadBus).1 = none ∧
     ((readHumidity nackReadBus).2).countP (fun op => op.isReadOp) = 1) :=
  ⟨(read_single_attempt_no_retry nackReadBus).1,
   (read_single_attempt_no_retry nackReadBus).2.1,
   rfl, rfl,
   (read_single_attempt_no_retry nackReadBus).2.2.1 rfl rfl,
   (read_single_attempt_no_retry nackReadBus).2.2.2 rfl rfl⟩

/-- Claim C10: `getTemperature` never changes the cached humidity, the
humidity self-heat flag or the humidity timer, and `getHumidity` never
changes the cached temperature, the temperature self-heat flag or the
temperature timer — the two quantities' caches and cooldown state
machines are independent under the per-quantity getters. -/
theorem getters_frame_independent (bus : Bus) (s : State) :
    (getTemperature bus s).2.1.humidity = s.humidity ∧
    (getTemperature bus s).2.1.selfHeatHumidity = s.selfHeatHumidity ∧
    (getTemperature bus s).2.1.hArmed = s.hArmed ∧
    (getHumidity bus s).2.1.temperature = s.temperature ∧
    (getHumidity bus s).2.1.selfHeatTemperature = s.selfHeatTemperature ∧
    (getHumidity bus s).2.1.tArmed = s.tArmed := by
  by_cases ht : s.selfHeatTemperature <;> by_cases hh : s.selfHeatHumidity <;>
    simp [getTemperature, getHumidity, ht, hh]

end SHT25
